import Mathlib

/-!
Verification of the data-cleaning / evaluation / training layer of the
mlops-project repository against its design specification.

The tabular data model is a shallow embedding of the pandas `DataFrame`
values the code manipulates: a frame is an ordered association of column
names to columns, a column is a dtype together with a list of cells, and a
missing value (`NaN`) is the cell `Cell.missing`.  Numeric data is embedded
as `ℚ` (the code works with float64; none of the claims under study depend
on rounding, only on the algebraic shape of the computations).

Fallible Python code (pandas `KeyError` on a missing label, sklearn
`ValueError` on mismatched shapes, the `ValueError` raised for an unknown
model name) is embedded as `Except PipeError`, whose constructors carry the
error vocabulary of the specification (`DataFormatError`,
`ShapeMismatchError`, ...).
-/

namespace MLOps

attribute [local semireducible] Rat.add Rat.mul Rat.sub Rat.inv

/-- One cell of a table: a numeric value, a text value, or a missing value
(pandas `NaN`). -/
inductive Cell where
  | num (x : ℚ)
  | str (s : String)
  | missing
  deriving DecidableEq

/-- The dtype of a pandas column, at the granularity the code needs:
`select_dtypes(include=[np.number])` keeps exactly the numeric columns. -/
inductive Dtype where
  | numeric
  | text
  | datetime
  deriving DecidableEq

/-- A pandas column: its dtype and its cells (one per row). -/
structure Col where
  dtype : Dtype
  cells : List Cell
  deriving DecidableEq

/-- A pandas `DataFrame`: an ordered association of column names to columns. -/
abbrev DataFrame := List (String × Col)

/-- The error kinds of the specification.  `dataFormatError` embeds the
pandas `KeyError` raised when a referenced column label is absent;
`shapeMismatchError` embeds the sklearn `ValueError` for mismatched or empty
metric inputs; `unsupportedModelError` embeds the `ValueError` raised by the
`train_model` step for an unknown model name; `emptySplitError` embeds the
sklearn `ValueError` raised by `train_test_split` when the resulting train or
test set would be empty; `degenerateInputError` and `trainingError` are named
by the specification (the former is shown never to be produced). -/
inductive PipeError where
  | dataFormatError (cols : List String)
  | shapeMismatchError
  | degenerateInputError
  | unsupportedModelError (name : String)
  | trainingError
  | emptySplitError
  deriving DecidableEq

instance {ε α : Type} [DecidableEq ε] [DecidableEq α] :
    DecidableEq (Except ε α)
  | .error e1, .error e2 =>
    if h : e1 = e2 then .isTrue (by rw [h]) else .isFalse (by simp [h])
  | .error _, .ok _ => .isFalse (by simp)
  | .ok _, .error _ => .isFalse (by simp)
  | .ok a1, .ok a2 =>
    if h : a1 = a2 then .isTrue (by rw [h]) else .isFalse (by simp [h])

/-- `df[c]` as a lookup: the first column named `c`, if any. -/
def getCol (df : DataFrame) (c : String) : Option Col :=
  (df.find? (fun p => decide (p.1 = c))).map Prod.snd

/-- `c in df.columns`. -/
def hasCol (df : DataFrame) (c : String) : Bool :=
  df.any (fun p => decide (p.1 = c))

/-- There is a numeric-dtyped column named `c`. -/
def hasNumCol (df : DataFrame) (c : String) : Bool :=
  df.any (fun p => decide (p.1 = c ∧ p.2.dtype = Dtype.numeric))

/-- `df.drop(cs, axis=1)`: pandas raises `KeyError` (listing the absent
labels) if any requested label is missing; otherwise it returns a new frame
without the named columns. -/
def dropCols (df : DataFrame) (cs : List String) : Except PipeError DataFrame :=
  if cs.all (fun c => hasCol df c) then
    .ok (df.filter (fun p => !(cs.contains p.1)))
  else
    .error (.dataFormatError (cs.filter (fun c => !(hasCol df c))))

/-- The numeric value of a cell, if it is one. -/
def numVal : Cell → Option ℚ
  | .num x => some x
  | _ => none

/-- `Series.median()`: sort the non-missing values; the middle one for an odd
count, the mean of the two middle ones for an even count, and `NaN` (here
`none`) for an empty or all-missing column. -/
def medianQ (l : List ℚ) : Option ℚ :=
  let s := List.insertionSort (· ≤ ·) l
  if s.length = 0 then none
  else if s.length % 2 = 1 then s[s.length / 2]?
  else do
    let a ← s[s.length / 2 - 1]?
    let b ← s[s.length / 2]?
    pure ((a + b) / 2)

/-- Median of a column's non-missing numeric cells. -/
def colMedian (col : Col) : Option ℚ :=
  medianQ (col.cells.filterMap numVal)

/-- `fillna` on one cell: replace a missing cell with `v`; when the fill
value is itself `NaN` (`none`, e.g. the median of an all-missing column) the
cell stays missing, exactly as pandas fills `NaN` with `NaN`. -/
def fillCell (v : Option Cell) : Cell → Cell
  | .missing => v.getD .missing
  | .num x => .num x
  | .str s => .str s

/-- Fill every missing cell of every column named `c` with `v`. -/
def fillWith (df : DataFrame) (c : String) (v : Option Cell) : DataFrame :=
  df.map (fun p =>
    if p.1 = c then (p.1, ⟨p.2.dtype, p.2.cells.map (fillCell v)⟩) else p)

/-- `data[c].fillna(data[c].median(), inplace=True)`: `KeyError` if `c` is
absent, otherwise fill the missing cells of `c` with its own median. -/
def fillnaMedian (df : DataFrame) (c : String) : Except PipeError DataFrame :=
  match getCol df c with
  | none => .error (.dataFormatError [c])
  | some col => .ok (fillWith df c ((colMedian col).map Cell.num))

/-- `data[c].fillna(s, inplace=True)` with a string sentinel. -/
def fillnaStr (df : DataFrame) (c : String) (s : String) :
    Except PipeError DataFrame :=
  match getCol df c with
  | none => .error (.dataFormatError [c])
  | some _ => .ok (fillWith df c (some (.str s)))

/-- `data.select_dtypes(include=[np.number])`. -/
def selectNumeric (df : DataFrame) : DataFrame :=
  df.filter (fun p => decide (p.2.dtype = Dtype.numeric))

/-- The five timestamp columns dropped first by the preprocess strategy. -/
def timestampCols : List String :=
  ["order_approved_at", "order_delivered_carrier_date",
   "order_delivered_customer_date", "order_estimated_delivery_date",
   "order_purchase_timestamp"]

/-- The four physical-dimension columns imputed with their medians. -/
def dimCols : List String :=
  ["product_weight_g", "product_length_cm", "product_height_cm",
   "product_width_cm"]

/-- The two identifier columns dropped last by the preprocess strategy. -/
def colsToDrop : List String := ["customer_zip_code_prefix", "order_item_id"]

/-- `DataPreprocessStrategy.handle_data` from `src/data_cleaning.py`:
drop the five timestamp columns, impute the four dimension columns with
their medians, impute the review text with `"No review"`, keep only numeric
columns, drop the two identifier columns.  Any pandas `KeyError` along the
way is logged and re-raised unchanged, so the `Except` error propagates. -/
def DataPreprocessStrategy.handle_data (data : DataFrame) :
    Except PipeError DataFrame := do
  let data ← dropCols data timestampCols
  let data ← fillnaMedian data "product_weight_g"
  let data ← fillnaMedian data "product_length_cm"
  let data ← fillnaMedian data "product_height_cm"
  let data ← fillnaMedian data "product_width_cm"
  let data ← fillnaStr data "review_comment_message" "No review"
  let data := selectNumeric data
  dropCols data colsToDrop

/-- `DataPreprocessStrategy.handle_data` together with the caller's view of
the frame it passed in.  The first statement of the Python body,
`data = data.drop([...], axis=1)`, calls `drop` without `inplace=True`,
which returns a fresh frame with copied data and rebinds the local name
`data`; every subsequent in-place `fillna` targets that fresh frame.  The
caller's object is therefore never written to, which the first component of
the returned pair records. -/
def DataPreprocessStrategy.handle_dataWithCaller (df : DataFrame) :
    Except PipeError (DataFrame × DataFrame) := do
  let data ← dropCols df timestampCols
  let data ← fillnaMedian data "product_weight_g"
  let data ← fillnaMedian data "product_length_cm"
  let data ← fillnaMedian data "product_height_cm"
  let data ← fillnaMedian data "product_width_cm"
  let data ← fillnaStr data "review_comment_message" "No review"
  let data := selectNumeric data
  let out ← dropCols data colsToDrop
  return (df, out)

/-- The median fill value for column `c`, computed from the frame `df`. -/
def medianCellOf (df : DataFrame) (c : String) : Option Cell :=
  ((getCol df c).bind colMedian).map Cell.num

/-- The five-step preprocess pipeline exactly as the specification words it:
(1) drop the five timestamp columns; (2) impute the four dimension columns,
each with its own median computed from the call's input table; (3) impute
the review text with the sentinel; (4) keep numeric columns only; (5) drop
the two identifier columns. -/
def specPreprocess (df : DataFrame) : DataFrame :=
  let d1 := df.filter (fun p => !(timestampCols.contains p.1))
  let d2 := dimCols.foldl (fun d c => fillWith d c (medianCellOf df c)) d1
  let d3 := fillWith d2 "review_comment_message" (some (.str "No review"))
  let d4 := selectNumeric d3
  d4.filter (fun p => !(colsToDrop.contains p.1))

/-- All columns the preprocess strategy references. -/
def expectedCols : List String :=
  timestampCols ++ dimCols ++ ["review_comment_message"] ++ colsToDrop

/-- The preprocess strategy's input assumption: every referenced column is
present, and the two identifier columns it drops at the end are
numeric-dtyped (they must survive the numeric selection to be droppable). -/
def expectedPresent (df : DataFrame) : Prop :=
  (∀ c ∈ timestampCols, hasCol df c = true) ∧
  (∀ c ∈ dimCols, hasCol df c = true) ∧
  hasCol df "review_comment_message" = true ∧
  (∀ c ∈ colsToDrop, hasNumCol df c = true)

instance : DecidablePred expectedPresent := fun df => by
  unfold expectedPresent; infer_instance

/-! Lemmas about column lookup through the preprocess primitives. -/

theorem getCol_cons (p : String × Col) (df : DataFrame) (c : String) :
    getCol (p :: df) c = if p.1 = c then some p.2 else getCol df c := by
  by_cases hc : p.1 = c
  · simp [getCol, List.find?_cons_of_pos, hc]
  · simp [getCol, List.find?_cons_of_neg, hc]

theorem hasCol_cons (p : String × Col) (df : DataFrame) (c : String) :
    hasCol (p :: df) c = (decide (p.1 = c) || hasCol df c) := by
  simp [hasCol]

theorem hasNumCol_cons (p : String × Col) (df : DataFrame) (c : String) :
    hasNumCol (p :: df) c =
      (decide (p.1 = c ∧ p.2.dtype = Dtype.numeric) || hasNumCol df c) := by
  simp [hasNumCol]

theorem fillWith_cons (p : String × Col) (df : DataFrame) (c : String)
    (v : Option Cell) :
    fillWith (p :: df) c v =
      (if p.1 = c then (p.1, ⟨p.2.dtype, p.2.cells.map (fillCell v)⟩) else p) ::
        fillWith df c v := by
  simp [fillWith]

theorem getCol_filterName (df : DataFrame) (q : String → Bool) (c : String) :
    getCol (df.filter (fun p => q p.1)) c = if q c then getCol df c else none := by
  induction df with
  | nil => simp [getCol]
  | cons p df ih =>
    by_cases hc : p.1 = c
    · subst hc
      by_cases hq : q p.1
      · simp [List.filter_cons, hq, getCol_cons]
      · simp [List.filter_cons, hq, getCol_cons, ih]
    · by_cases hq : q p.1
      · simp [List.filter_cons, hq, getCol_cons, hc, ih]
      · simp [List.filter_cons, hq, getCol_cons, hc, ih]

theorem getCol_fillWith_ne (df : DataFrame) (c cx : String) (v : Option Cell)
    (h : cx ≠ c) : getCol (fillWith df c v) cx = getCol df cx := by
  induction df with
  | nil => rfl
  | cons p df ih =>
    by_cases hc : p.1 = c
    · have hx : ¬ p.1 = cx := by rw [hc]; exact fun hh => h hh.symm
      rw [fillWith_cons, getCol_cons, getCol_cons]
      simp [hc, hx, ih, Ne.symm h]
    · by_cases hx : p.1 = cx
      · rw [fillWith_cons, getCol_cons, getCol_cons]
        simp [hc, hx, h]
      · rw [fillWith_cons, getCol_cons, getCol_cons]
        simp [hc, hx, ih]

theorem hasCol_iff_getCol (df : DataFrame) (c : String) :
    hasCol df c = true ↔ ∃ col, getCol df c = some col := by
  induction df with
  | nil => simp [hasCol, getCol]
  | cons p df ih =>
    rw [hasCol_cons, getCol_cons]
    by_cases hc : p.1 = c <;> simp [hc, ih]

theorem hasCol_fillWith (df : DataFrame) (c cx : String) (v : Option Cell) :
    hasCol (fillWith df c v) cx = hasCol df cx := by
  induction df with
  | nil => rfl
  | cons p df ih =>
    rw [fillWith_cons, hasCol_cons, hasCol_cons, ih]
    by_cases hc : p.1 = c <;> simp [hc]

theorem hasNumCol_fillWith (df : DataFrame) (c cx : String) (v : Option Cell) :
    hasNumCol (fillWith df c v) cx = hasNumCol df cx := by
  induction df with
  | nil => rfl
  | cons p df ih =>
    rw [fillWith_cons, hasNumCol_cons, hasNumCol_cons, ih]
    by_cases hc : p.1 = c <;> simp [hc]

theorem hasNumCol_filterName (df : DataFrame) (q : String → Bool) (c : String) :
    hasNumCol (df.filter (fun p => q p.1)) c = (q c && hasNumCol df c) := by
  induction df with
  | nil => simp [hasNumCol]
  | cons p df ih =>
    by_cases hc : p.1 = c
    · subst hc
      by_cases hq : q p.1
      · rw [List.filter_cons_of_pos (by simpa using hq), hasNumCol_cons,
          hasNumCol_cons, ih]
        simp [hq]
      · rw [List.filter_cons_of_neg (by simpa using hq), hasNumCol_cons, ih]
        simp [hq]
    · by_cases hq : q p.1
      · rw [List.filter_cons_of_pos (by simpa using hq), hasNumCol_cons,
          hasNumCol_cons, ih]
        simp [hc]
      · rw [List.filter_cons_of_neg (by simpa using hq), hasNumCol_cons, ih]
        simp [hc]

theorem hasCol_selectNumeric (df : DataFrame) (c : String) :
    hasCol (selectNumeric df) c = hasNumCol df c := by
  induction df with
  | nil => rfl
  | cons p df ih =>
    by_cases hd : p.2.dtype = Dtype.numeric
    · rw [selectNumeric, List.filter_cons_of_pos (by simpa using hd),
        hasCol_cons, ← selectNumeric, ih, hasNumCol_cons]
      by_cases hc : p.1 = c <;> simp [hc, hd]
    · rw [selectNumeric, List.filter_cons_of_neg (by simpa using hd),
        ← selectNumeric, ih, hasNumCol_cons]
      by_cases hc : p.1 = c <;> simp [hc, hd]

theorem hasNumCol_hasCol (df : DataFrame) (c : String)
    (h : hasNumCol df c = true) : hasCol df c = true := by
  induction df with
  | nil => simp [hasNumCol] at h
  | cons p df ih =>
    rw [hasNumCol_cons] at h
    rw [hasCol_cons]
    rcases Bool.or_eq_true_iff.mp h with h1 | h2
    · have := of_decide_eq_true h1
      simp [this.1]
    · simp [ih h2]

theorem hasCol_filter_le (df : DataFrame) (q : (String × Col) → Bool)
    (c : String) (h : hasCol (df.filter q) c = true) : hasCol df c = true := by
  induction df with
  | nil => simp [hasCol] at h
  | cons p df ih =>
    rw [hasCol_cons]
    by_cases hq : q p
    · rw [List.filter_cons_of_pos hq, hasCol_cons] at h
      rcases Bool.or_eq_true_iff.mp h with h1 | h2
      · simp [h1]
      · simp [ih h2]
    · rw [List.filter_cons_of_neg hq] at h
      simp [ih h]

theorem exbind_ok {α β : Type} (a : α) (f : α → Except PipeError β) :
    (Except.ok a >>= f : Except PipeError β) = f a := rfl

theorem exbind_error {α β : Type} (e : PipeError) (f : α → Except PipeError β) :
    (Except.error e >>= f : Except PipeError β) = Except.error e := rfl

theorem dropCols_ok (df : DataFrame) (cs : List String) (d : DataFrame)
    (h : dropCols df cs = .ok d) :
    (∀ c ∈ cs, hasCol df c = true) ∧
      d = df.filter (fun p => !(cs.contains p.1)) := by
  rw [dropCols] at h
  split at h
  · next hcond => exact ⟨List.all_eq_true.mp hcond, (Except.ok.inj h).symm⟩
  · exact absurd h (by simp)

theorem dropCols_error (df : DataFrame) (cs : List String) (e : PipeError)
    (h : dropCols df cs = .error e) : ∃ xs, e = .dataFormatError xs := by
  rw [dropCols] at h
  split at h
  · exact absurd h (by simp)
  · exact ⟨_, (Except.error.inj h).symm⟩

theorem fillnaMedian_ok (df : DataFrame) (c : String) (d : DataFrame)
    (h : fillnaMedian df c = .ok d) :
    hasCol df c = true ∧ ∃ v, d = fillWith df c v := by
  rw [fillnaMedian] at h
  cases hg : getCol df c with
  | none => rw [hg] at h; exact absurd h (by simp)
  | some col =>
    rw [hg] at h
    exact ⟨(hasCol_iff_getCol df c).mpr ⟨col, hg⟩, _, (Except.ok.inj h).symm⟩

theorem fillnaMedian_error (df : DataFrame) (c : String) (e : PipeError)
    (h : fillnaMedian df c = .error e) : ∃ xs, e = .dataFormatError xs := by
  rw [fillnaMedian] at h
  cases hg : getCol df c with
  | none => rw [hg] at h; exact ⟨_, (Except.error.inj h).symm⟩
  | some col => rw [hg] at h; exact absurd h (by simp)

theorem fillnaStr_ok (df : DataFrame) (c s : String) (d : DataFrame)
    (h : fillnaStr df c s = .ok d) :
    hasCol df c = true ∧ d = fillWith df c (some (.str s)) := by
  rw [fillnaStr] at h
  cases hg : getCol df c with
  | none => rw [hg] at h; exact absurd h (by simp)
  | some col =>
    rw [hg] at h
    exact ⟨(hasCol_iff_getCol df c).mpr ⟨col, hg⟩, (Except.ok.inj h).symm⟩

theorem fillnaStr_error (df : DataFrame) (c s : String) (e : PipeError)
    (h : fillnaStr df c s = .error e) : ∃ xs, e = .dataFormatError xs := by
  rw [fillnaStr] at h
  cases hg : getCol df c with
  | none => rw [hg] at h; exact ⟨_, (Except.error.inj h).symm⟩
  | some col => rw [hg] at h; exact absurd h (by simp)

/-- On a table with all expected columns, the preprocess strategy computes
exactly the specification's five-step pipeline. -/
theorem handle_data_eq_specPreprocess (df : DataFrame) (h : expectedPresent df) :
    DataPreprocessStrategy.handle_data df = .ok (specPreprocess df) := by
  obtain ⟨h1, h2, h3, h4⟩ := h
  set d1 := df.filter (fun p => !(timestampCols.contains p.1)) with hd1
  have hdrop : dropCols df timestampCols = .ok d1 := by
    rw [dropCols, if_pos (List.all_eq_true.mpr h1)]
  -- each column the fills reference survives the timestamp drop unchanged
  have hsurv : ∀ c : String, (!(timestampCols.contains c)) = true →
      getCol d1 c = getCol df c := by
    intro c hq
    rw [hd1, getCol_filterName df (fun s => !timestampCols.contains s) c, hq,
      if_pos rfl]
  obtain ⟨cw, hcw⟩ := (hasCol_iff_getCol df _).mp
    (h2 "product_weight_g" (by simp [dimCols]))
  obtain ⟨cl, hcl⟩ := (hasCol_iff_getCol df _).mp
    (h2 "product_length_cm" (by simp [dimCols]))
  obtain ⟨ch, hch⟩ := (hasCol_iff_getCol df _).mp
    (h2 "product_height_cm" (by simp [dimCols]))
  obtain ⟨cd, hcd⟩ := (hasCol_iff_getCol df _).mp
    (h2 "product_width_cm" (by simp [dimCols]))
  obtain ⟨cr, hcr⟩ := (hasCol_iff_getCol df _).mp h3
  set d2a := fillWith d1 "product_weight_g" ((colMedian cw).map Cell.num)
    with hd2a
  set d2b := fillWith d2a "product_length_cm" ((colMedian cl).map Cell.num)
    with hd2b
  set d2c := fillWith d2b "product_height_cm" ((colMedian ch).map Cell.num)
    with hd2c
  set d2d := fillWith d2c "product_width_cm" ((colMedian cd).map Cell.num)
    with hd2d
  set d3 := fillWith d2d "review_comment_message" (some (Cell.str "No review"))
    with hd3
  have hg1 : getCol d1 "product_weight_g" = some cw := by
    rw [hsurv _ (by decide), hcw]
  have hstepw : fillnaMedian d1 "product_weight_g" = .ok d2a := by
    rw [fillnaMedian, hg1]
  have hg2 : getCol d2a "product_length_cm" = some cl := by
    rw [hd2a, getCol_fillWith_ne _ _ _ _ (by decide), hsurv _ (by decide), hcl]
  have hstepl : fillnaMedian d2a "product_length_cm" = .ok d2b := by
    rw [fillnaMedian, hg2]
  have hg3 : getCol d2b "product_height_cm" = some ch := by
    rw [hd2b, getCol_fillWith_ne _ _ _ _ (by decide), hd2a,
      getCol_fillWith_ne _ _ _ _ (by decide), hsurv _ (by decide), hch]
  have hsteph : fillnaMedian d2b "product_height_cm" = .ok d2c := by
    rw [fillnaMedian, hg3]
  have hg4 : getCol d2c "product_width_cm" = some cd := by
    rw [hd2c, getCol_fillWith_ne _ _ _ _ (by decide), hd2b,
      getCol_fillWith_ne _ _ _ _ (by decide), hd2a,
      getCol_fillWith_ne _ _ _ _ (by decide), hsurv _ (by decide), hcd]
  have hstepd : fillnaMedian d2c "product_width_cm" = .ok d2d := by
    rw [fillnaMedian, hg4]
  have hg5 : getCol d2d "review_comment_message" = some cr := by
    rw [hd2d, getCol_fillWith_ne _ _ _ _ (by decide), hd2c,
      getCol_fillWith_ne _ _ _ _ (by decide), hd2b,
      getCol_fillWith_ne _ _ _ _ (by decide), hd2a,
      getCol_fillWith_ne _ _ _ _ (by decide), hsurv _ (by decide), hcr]
  have hstepr : fillnaStr d2d "review_comment_message" "No review" = .ok d3 := by
    rw [fillnaStr, hg5]
  have hall4 : (colsToDrop.all fun c => hasCol (selectNumeric d3) c) = true := by
    apply List.all_eq_true.mpr
    intro c hc
    have hq : (!(timestampCols.contains c)) = true := by
      simp only [colsToDrop, List.mem_cons, List.not_mem_nil, or_false] at hc
      rcases hc with rfl | rfl <;> decide
    rw [hasCol_selectNumeric, hd3, hasNumCol_fillWith, hd2d, hasNumCol_fillWith,
      hd2c, hasNumCol_fillWith, hd2b, hasNumCol_fillWith, hd2a,
      hasNumCol_fillWith, hd1,
      hasNumCol_filterName df (fun s => !timestampCols.contains s) c, hq,
      h4 c hc]
    rfl
  have hspec : specPreprocess df =
      (selectNumeric d3).filter (fun p => !(colsToDrop.contains p.1)) := by
    rw [specPreprocess]
    simp only [dimCols, List.foldl_cons, List.foldl_nil]
    rw [show medianCellOf df "product_weight_g" = (colMedian cw).map Cell.num by
          rw [medianCellOf, hcw]; rfl,
        show medianCellOf df "product_length_cm" = (colMedian cl).map Cell.num by
          rw [medianCellOf, hcl]; rfl,
        show medianCellOf df "product_height_cm" = (colMedian ch).map Cell.num by
          rw [medianCellOf, hch]; rfl,
        show medianCellOf df "product_width_cm" = (colMedian cd).map Cell.num by
          rw [medianCellOf, hcd]; rfl]
  rw [DataPreprocessStrategy.handle_data]
  simp only [hdrop, hstepw, hstepl, hsteph, hstepd, hstepr, exbind_ok]
  rw [dropCols, if_pos hall4, hspec]

/-- Every failure of the preprocess strategy is a missing-column failure:
the only exceptions its body can raise are pandas `KeyError`s. -/
theorem preprocess_error_isDataFormat (df : DataFrame) (e : PipeError)
    (h : DataPreprocessStrategy.handle_data df = .error e) :
    ∃ xs, e = .dataFormatError xs := by
  rw [DataPreprocessStrategy.handle_data] at h
  cases h0 : dropCols df timestampCols with
  | error e0 =>
    rw [h0, exbind_error] at h
    obtain rfl := Except.error.inj h
    exact dropCols_error _ _ _ h0
  | ok d1 =>
    rw [h0, exbind_ok] at h
    cases hw : fillnaMedian d1 "product_weight_g" with
    | error e1 =>
      rw [hw, exbind_error] at h
      obtain rfl := Except.error.inj h
      exact fillnaMedian_error _ _ _ hw
    | ok d2 =>
      rw [hw, exbind_ok] at h
      cases hl : fillnaMedian d2 "product_length_cm" with
      | error e2 =>
        rw [hl, exbind_error] at h
        obtain rfl := Except.error.inj h
        exact fillnaMedian_error _ _ _ hl
      | ok d3 =>
        rw [hl, exbind_ok] at h
        cases hh : fillnaMedian d3 "product_height_cm" with
        | error e3 =>
          rw [hh, exbind_error] at h
          obtain rfl := Except.error.inj h
          exact fillnaMedian_error _ _ _ hh
        | ok d4 =>
          rw [hh, exbind_ok] at h
          cases hww : fillnaMedian d4 "product_width_cm" with
          | error e4 =>
            rw [hww, exbind_error] at h
            obtain rfl := Except.error.inj h
            exact fillnaMedian_error _ _ _ hww
          | ok d5 =>
            rw [hww, exbind_ok] at h
            cases hr : fillnaStr d5 "review_comment_message" "No review" with
            | error e5 =>
              rw [hr, exbind_error] at h
              obtain rfl := Except.error.inj h
              exact fillnaStr_error _ _ _ _ hr
            | ok d6 =>
              rw [hr, exbind_ok] at h
              exact dropCols_error _ _ _ h

/-- A successful preprocess run implies every expected column was present in
the input. -/
theorem preprocess_ok_expected (df : DataFrame) (out : DataFrame)
    (h : DataPreprocessStrategy.handle_data df = .ok out) :
    ∀ c ∈ expectedCols, hasCol df c = true := by
  rw [DataPreprocessStrategy.handle_data] at h
  cases h0 : dropCols df timestampCols with
  | error e0 => rw [h0, exbind_error] at h; exact absurd h (by simp)
  | ok d1 =>
    rw [h0, exbind_ok] at h
    obtain ⟨hts, hd1⟩ := dropCols_ok _ _ _ h0
    have hback1 : ∀ c, hasCol d1 c = true → hasCol df c = true := by
      intro c hc; rw [hd1] at hc; exact hasCol_filter_le _ _ _ hc
    cases hw : fillnaMedian d1 "product_weight_g" with
    | error e1 => rw [hw, exbind_error] at h; exact absurd h (by simp)
    | ok d2 =>
      rw [hw, exbind_ok] at h
      obtain ⟨hwp, vw, hd2⟩ := fillnaMedian_ok _ _ _ hw
      have hback2 : ∀ c, hasCol d2 c = true → hasCol df c = true := by
        intro c hc; rw [hd2, hasCol_fillWith] at hc; exact hback1 c hc
      cases hl : fillnaMedian d2 "product_length_cm" with
      | error e2 => rw [hl, exbind_error] at h; exact absurd h (by simp)
      | ok d3 =>
        rw [hl, exbind_ok] at h
        obtain ⟨hlp, vl, hd3⟩ := fillnaMedian_ok _ _ _ hl
        have hback3 : ∀ c, hasCol d3 c = true → hasCol df c = true := by
          intro c hc; rw [hd3, hasCol_fillWith] at hc; exact hback2 c hc
        cases hh : fillnaMedian d3 "product_height_cm" with
        | error e3 => rw [hh, exbind_error] at h; exact absurd h (by simp)
        | ok d4 =>
          rw [hh, exbind_ok] at h
          obtain ⟨hhp, vh, hd4⟩ := fillnaMedian_ok _ _ _ hh
          have hback4 : ∀ c, hasCol d4 c = true → hasCol df c = true := by
            intro c hc; rw [hd4, hasCol_fillWith] at hc; exact hback3 c hc
          cases hww : fillnaMedian d4 "product_width_cm" with
          | error e4 => rw [hww, exbind_error] at h; exact absurd h (by simp)
          | ok d5 =>
            rw [hww, exbind_ok] at h
            obtain ⟨hdp, vd, hd5⟩ := fillnaMedian_ok _ _ _ hww
            have hback5 : ∀ c, hasCol d5 c = true → hasCol df c = true := by
              intro c hc; rw [hd5, hasCol_fillWith] at hc; exact hback4 c hc
            cases hr : fillnaStr d5 "review_comment_message" "No review" with
            | error e5 => rw [hr, exbind_error] at h; exact absurd h (by simp)
            | ok d6 =>
              rw [hr, exbind_ok] at h
              obtain ⟨hrp, hd6⟩ := fillnaStr_ok _ _ _ _ hr
              have hback6 : ∀ c, hasNumCol d6 c = true → hasCol df c = true := by
                intro c hc
                rw [hd6, hasNumCol_fillWith, hd5, hasNumCol_fillWith, hd4,
                  hasNumCol_fillWith, hd3, hasNumCol_fillWith, hd2,
                  hasNumCol_fillWith, hd1,
                  hasNumCol_filterName df (fun s => !timestampCols.contains s) c]
                  at hc
                exact hasNumCol_hasCol _ _ (by
                  rcases Bool.and_eq_true_iff.mp hc with ⟨_, hc2⟩; exact hc2)
              obtain ⟨hcd, _⟩ := dropCols_ok _ _ _ h
              intro c hc
              simp only [expectedCols, timestampCols, dimCols, colsToDrop,
                List.append_assoc, List.mem_append, List.mem_cons,
                List.not_mem_nil, or_false] at hc
              rcases hc with ((rfl | rfl | rfl | rfl | rfl) |
                  (rfl | rfl | rfl | rfl) | rfl | (rfl | rfl))
              · exact hts _ (by simp [timestampCols])
              · exact hts _ (by simp [timestampCols])
              · exact hts _ (by simp [timestampCols])
              · exact hts _ (by simp [timestampCols])
              · exact hts _ (by simp [timestampCols])
              · exact hback1 _ hwp
              · exact hback2 _ hlp
              · exact hback3 _ hhp
              · exact hback4 _ hdp
              · exact hback5 _ hrp
              · exact hback6 _ (by
                  rw [← hasCol_selectNumeric]
                  exact hcd _ (by simp [colsToDrop]))
              · exact hback6 _ (by
                  rw [← hasCol_selectNumeric]
                  exact hcd _ (by simp [colsToDrop]))

/-! The divide strategy: `train_test_split(X, y, test_size=0.2,
random_state=42)`.  The seeded NumPy shuffle is embedded as a deterministic
Fisher-Yates-style extraction driven by a linear congruential generator; the
exact permutation differs from the Mersenne Twister's, but every property at
stake (sizes, disjointness, coverage, determinism) depends only on the
shuffle being a permutation of the row indices that is a function of the
seed and the length. -/

/-- One step of the deterministic pseudo-random number generator standing in
for the seeded Mersenne Twister. -/
def lcgNext (g : Nat) : Nat := (g * 1103515245 + 12345) % 4294967296

/-- Fuel-indexed shuffle: extract the element at a generator-chosen position
and recurse on the remainder. -/
def shuffleAux {α : Type} : Nat → Nat → List α → List α
  | 0, _, _ => []
  | _ + 1, _, [] => []
  | fuel + 1, g, a :: t =>
    let k := g % (a :: t).length
    have hk : k < (a :: t).length := Nat.mod_lt _ (by simp)
    (a :: t).get ⟨k, hk⟩ :: shuffleAux fuel (lcgNext g) ((a :: t).eraseIdx k)

/-- The seeded shuffle of a list. -/
def shuffleList {α : Type} (seed : Nat) (l : List α) : List α :=
  shuffleAux l.length seed l

theorem get_cons_eraseIdx_perm {α : Type} (l : List α) (k : Nat)
    (hk : k < l.length) :
    List.Perm (l.get ⟨k, hk⟩ :: l.eraseIdx k) l := by
  induction l generalizing k with
  | nil => exact absurd hk (by simp)
  | cons a t ih =>
    cases k with
    | zero => simp [List.eraseIdx]
    | succ k =>
      have hk2 : k < t.length := by simpa using hk
      exact (List.Perm.swap a _ _).trans ((ih k hk2).cons a)

theorem shuffleAux_perm {α : Type} (fuel : Nat) (g : Nat) (l : List α)
    (h : l.length ≤ fuel) : List.Perm (shuffleAux fuel g l) l := by
  induction fuel generalizing g l with
  | zero =>
    have : l = [] := List.length_eq_zero.mp (Nat.le_zero.mp h)
    simp [this, shuffleAux]
  | succ fuel ih =>
    cases l with
    | nil => simp [shuffleAux]
    | cons a t =>
      rw [shuffleAux]
      have hk : g % (a :: t).length < (a :: t).length :=
        Nat.mod_lt _ (by simp)
      have hlen : ((a :: t).eraseIdx (g % (a :: t).length)).length ≤ fuel := by
        rw [List.length_eraseIdx_of_lt hk]
        simp only [List.length_cons] at h ⊢
        omega
      exact ((ih (lcgNext g) _ hlen).cons _).trans
        (get_cons_eraseIdx_perm (a :: t) _ hk)

theorem shuffleList_perm {α : Type} (seed : Nat) (l : List α) :
    List.Perm (shuffleList seed l) l :=
  shuffleAux_perm _ _ _ le_rfl

/-- sklearn `_validate_shuffle_split` with `test_size=0.2`:
`n_test = ceil(0.2 * n)`. -/
def testCount (n : Nat) : Nat := (n + 4) / 5

/-- The index split performed by `train_test_split(test_size=0.2,
random_state=seed)`: shuffle the row indices, take the first `n_test` as the
test set and the rest as the train set; raise `ValueError` when the
resulting train or test set would be empty. -/
def trainTestIndices (seed n : Nat) : Except PipeError (List Nat × List Nat) :=
  let nt := testCount n
  if nt = 0 ∨ n - nt = 0 then .error .emptySplitError
  else
    let idx := shuffleList seed (List.range n)
    .ok (idx.drop nt, idx.take nt)

/-- The number of rows of a frame (pandas keeps one length for all
columns). -/
def nrows : DataFrame → Nat
  | [] => 0
  | p :: _ => p.2.cells.length

/-- Positional row selection on one column's cells. -/
def selectCells (cells : List Cell) (idx : List Nat) : List Cell :=
  idx.map (fun i => cells.getD i Cell.missing)

/-- Positional row selection on a frame (`X.iloc[idx]`). -/
def selectRows (df : DataFrame) (idx : List Nat) : DataFrame :=
  df.map (fun p => (p.1, ⟨p.2.dtype, selectCells p.2.cells idx⟩))

/-- The four co-indexed partitions returned by the divide strategy. -/
structure SplitResult where
  X_train : DataFrame
  X_test : DataFrame
  y_train : List Cell
  y_test : List Cell
  deriving DecidableEq

/-- `DataDivideStrategy.handle_data` from `src/data_cleaning.py`:
`X = data.drop("review_score", axis=1)`, `y = data["review_score"]`, then
`train_test_split(X, y, test_size=0.2, random_state=42)`.  Any exception is
logged and re-raised unchanged. -/
def DataDivideStrategy.handle_data (data : DataFrame) :
    Except PipeError SplitResult := do
  let X ← dropCols data ["review_score"]
  match getCol data "review_score" with
  | none => .error (.dataFormatError ["review_score"])
  | some ycol => do
    let pr ← trainTestIndices 42 (nrows data)
    .ok ⟨selectRows X pr.1, selectRows X pr.2,
         selectCells ycol.cells pr.1, selectCells ycol.cells pr.2⟩

/-- Helper: the split invariants of the divide strategy on a table with a
`review_score` column and at least two rows. -/
theorem divide_split_invariants (df : DataFrame)
    (hc : hasCol df "review_score" = true) (hn : 2 ≤ nrows df) :
    ∃ sr tr te,
      DataDivideStrategy.handle_data df = .ok sr ∧
      trainTestIndices 42 (nrows df) = .ok (tr, te) ∧
      sr.y_train.length + sr.y_test.length = nrows df ∧
      te.length = testCount (nrows df) ∧
      (∀ i, ¬ (i ∈ tr ∧ i ∈ te)) ∧
      (∀ i, (i ∈ tr ∨ i ∈ te) ↔ i < nrows df) ∧
      (∀ dg, dg = df →
        DataDivideStrategy.handle_data dg = DataDivideStrategy.handle_data df) := by
  set n := nrows df with hnr
  have hnt1 : testCount n ≠ 0 := by rw [testCount]; omega
  have hnt2 : n - testCount n ≠ 0 := by rw [testCount]; omega
  have hntle : testCount n ≤ n := by rw [testCount]; omega
  set idx := shuffleList 42 (List.range n) with hidx
  have hperm : List.Perm idx (List.range n) := shuffleList_perm _ _
  have hlen : idx.length = n := by rw [hperm.length_eq, List.length_range]
  have htt : trainTestIndices 42 n =
      .ok (idx.drop (testCount n), idx.take (testCount n)) := by
    rw [trainTestIndices, if_neg (by push_neg; exact ⟨hnt1, hnt2⟩)]
  have hdropc : (["review_score"].all fun c => hasCol df c) = true := by
    simp [hc]
  have hX : dropCols df ["review_score"] =
      .ok (df.filter (fun p => !(["review_score"].contains p.1))) := by
    rw [dropCols, if_pos hdropc]
  obtain ⟨ycol, hy⟩ := (hasCol_iff_getCol df _).mp hc
  have hrun : DataDivideStrategy.handle_data df =
      .ok ⟨selectRows (df.filter (fun p => !(["review_score"].contains p.1)))
             (idx.drop (testCount n)),
           selectRows (df.filter (fun p => !(["review_score"].contains p.1)))
             (idx.take (testCount n)),
           selectCells ycol.cells (idx.drop (testCount n)),
           selectCells ycol.cells (idx.take (testCount n))⟩ := by
    rw [DataDivideStrategy.handle_data]
    simp only [hX, exbind_ok, hy, ← hnr, htt, exbind_ok]
  refine ⟨_, _, _, hrun, htt, ?_, ?_, ?_, ?_, ?_⟩
  · simp only [selectCells, List.length_map, List.length_drop,
      List.length_take, hlen]
    omega
  · simp only [List.length_take, hlen]
    omega
  · intro i ⟨htr, hte⟩
    have hnd : idx.Nodup := hperm.nodup_iff.mpr (List.nodup_range n)
    rw [← List.take_append_drop (testCount n) idx, List.nodup_append] at hnd
    exact hnd.2.2 hte htr
  · intro i
    have hmem : i ∈ idx ↔ i < n := by
      rw [hperm.mem_iff, List.mem_range]
    constructor
    · rintro (h1 | h1)
      · exact hmem.mp (List.mem_of_mem_drop h1)
      · exact hmem.mp (List.mem_of_mem_take h1)
    · intro h1
      have h2 : i ∈ idx := hmem.mpr h1
      rw [← List.take_append_drop (testCount n) idx, List.mem_append] at h2
      rcases h2 with h3 | h3
      · exact Or.inr h3
      · exact Or.inl h3
  · intro dg hdg
    rw [hdg]

/-- C2 (amended): on any table with a `review_score` column and at least two
rows, the divide strategy succeeds and produces four co-indexed partitions
whose train/test index sets are disjoint, cover exactly the row indices, sum
to the table's row count, with a test partition of `ceil(0.2 * n)` rows, and
the split is a deterministic function of the input (seed fixed at 42). -/
theorem claim_C2_divide_invariants (df : DataFrame)
    (hc : hasCol df "review_score" = true) (hn : 2 ≤ nrows df) :
    ∃ sr tr te,
      DataDivideStrategy.handle_data df = .ok sr ∧
      trainTestIndices 42 (nrows df) = .ok (tr, te) ∧
      sr.y_train.length + sr.y_test.length = nrows df ∧
      te.length = testCount (nrows df) ∧
      (∀ i, ¬ (i ∈ tr ∧ i ∈ te)) ∧
      (∀ i, (i ∈ tr ∨ i ∈ te) ↔ i < nrows df) ∧
      (∀ dg, dg = df →
        DataDivideStrategy.handle_data dg = DataDivideStrategy.handle_data df) :=
  divide_split_invariants df hc hn

/-- C3: a table missing any expected column makes the preprocess strategy
fail with a `DataFormatError`, and a table missing the `review_score` target
makes the divide strategy fail with a `DataFormatError`. -/
theorem claim_C3_missing_column_errors :
    (∀ df c, c ∈ expectedCols → hasCol df c = false →
      ∃ xs, DataPreprocessStrategy.handle_data df =
        .error (.dataFormatError xs)) ∧
    (∀ df, hasCol df "review_score" = false →
      DataDivideStrategy.handle_data df =
        .error (.dataFormatError ["review_score"])) := by
  constructor
  · intro df c hcm hc
    cases hr : DataPreprocessStrategy.handle_data df with
    | ok out =>
      have := preprocess_ok_expected df out hr c hcm
      rw [hc] at this
      exact absurd this (by simp)
    | error e =>
      obtain ⟨xs, rfl⟩ := preprocess_error_isDataFormat df e hr
      exact ⟨xs, rfl⟩
  · intro df hc
    have hdc : dropCols df ["review_score"] =
        .error (.dataFormatError ["review_score"]) := by
      rw [dropCols, if_neg (by simp [hc])]
      simp [hc]
    rw [DataDivideStrategy.handle_data]
    simp only [hdc, exbind_error]

/-- A two-row table with every column the preprocess strategy expects. -/
def sampleFull : DataFrame :=
  [("order_approved_at", ⟨Dtype.datetime, [Cell.str "a", Cell.str "b"]⟩),
   ("order_delivered_carrier_date",
     ⟨Dtype.datetime, [Cell.str "c", Cell.str "d"]⟩),
   ("order_delivered_customer_date",
     ⟨Dtype.datetime, [Cell.str "e", Cell.str "f"]⟩),
   ("order_estimated_delivery_date",
     ⟨Dtype.datetime, [Cell.str "g", Cell.str "h"]⟩),
   ("order_purchase_timestamp", ⟨Dtype.datetime, [Cell.str "i", Cell.str "j"]⟩),
   ("product_weight_g", ⟨Dtype.numeric, [Cell.num 10, Cell.missing]⟩),
   ("product_length_cm", ⟨Dtype.numeric, [Cell.num 2, Cell.num 4]⟩),
   ("product_height_cm", ⟨Dtype.numeric, [Cell.missing, Cell.num 3]⟩),
   ("product_width_cm", ⟨Dtype.numeric, [Cell.num 5, Cell.num 7]⟩),
   ("review_comment_message", ⟨Dtype.text, [Cell.missing, Cell.str "ok"]⟩),
   ("review_score", ⟨Dtype.numeric, [Cell.num 4, Cell.num 5]⟩),
   ("customer_zip_code_prefix", ⟨Dtype.numeric, [Cell.num 111, Cell.num 222]⟩),
   ("order_item_id", ⟨Dtype.numeric, [Cell.num 1, Cell.num 2]⟩)]

/-- A one-row table with a `review_score` column. -/
def oneRowTable : DataFrame :=
  [("feature_a", ⟨Dtype.numeric, [Cell.num 1]⟩),
   ("review_score", ⟨Dtype.numeric, [Cell.num 5]⟩)]

/-- A table missing `product_weight_g` (and most other expected columns). -/
def missingWeightTable : DataFrame :=
  [("review_score", ⟨Dtype.numeric, [Cell.num 1]⟩)]

/-- A table without the `review_score` target column. -/
def noTargetTable : DataFrame :=
  [("feature_b", ⟨Dtype.numeric, [Cell.num 1]⟩)]

/-- C1: on every input table containing all expected columns, the preprocess
strategy's output equals the specification's five-step pipeline applied in
order: drop the five timestamp columns, impute the four dimension columns
with their input-derived medians, impute the review text with the sentinel,
restrict to numeric columns, drop the two identifier columns. -/
theorem claim_C1_preprocess_is_spec_pipeline (df : DataFrame)
    (h : expectedPresent df) :
    DataPreprocessStrategy.handle_data df = .ok (specPreprocess df) :=
  handle_data_eq_specPreprocess df h

theorem claim_C1_witness :
    expectedPresent sampleFull ∧
      DataPreprocessStrategy.handle_data sampleFull =
        .ok (specPreprocess sampleFull) :=
  ⟨by decide, claim_C1_preprocess_is_spec_pipeline sampleFull (by decide)⟩

theorem claim_C2_witness :
    hasCol sampleFull "review_score" = true ∧ 2 ≤ nrows sampleFull ∧
    (∃ sr tr te,
      DataDivideStrategy.handle_data sampleFull = .ok sr ∧
      trainTestIndices 42 (nrows sampleFull) = .ok (tr, te) ∧
      sr.y_train.length + sr.y_test.length = nrows sampleFull ∧
      te.length = testCount (nrows sampleFull) ∧
      (∀ i, ¬ (i ∈ tr ∧ i ∈ te)) ∧
      (∀ i, (i ∈ tr ∨ i ∈ te) ↔ i < nrows sampleFull) ∧
      (∀ dg, dg = sampleFull →
        DataDivideStrategy.handle_data dg =
          DataDivideStrategy.handle_data sampleFull)) :=
  ⟨by decide, by decide,
    claim_C2_divide_invariants sampleFull (by decide) (by decide)⟩

/-- On a one-row table containing `review_score`, the divide strategy does
not produce four partitions: sklearn raises because the resulting train set
would be empty.  This refutes the unamended claim, which quantifies over
every table containing a `review_score` column. -/
theorem claim_C2_counterexample :
    hasCol oneRowTable "review_score" = true ∧
      DataDivideStrategy.handle_data oneRowTable =
        .error PipeError.emptySplitError := by
  constructor
  · decide
  · decide

theorem claim_C3_witness :
    ("product_weight_g" ∈ expectedCols ∧
      hasCol missingWeightTable "product_weight_g" = false ∧
      ∃ xs, DataPreprocessStrategy.handle_data missingWeightTable =
        .error (.dataFormatError xs)) ∧
    (hasCol noTargetTable "review_score" = false ∧
      DataDivideStrategy.handle_data noTargetTable =
        .error (.dataFormatError ["review_score"])) :=
  ⟨⟨by decide, by decide,
     claim_C3_missing_column_errors.1 missingWeightTable "product_weight_g"
       (by decide) (by decide)⟩,
   ⟨by decide, claim_C3_missing_column_errors.2 noTargetTable (by decide)⟩⟩

/-! Imputation behaviour of the preprocess strategy on a single dimension
column (claim C6). -/

theorem medianQ_isSome (l : List ℚ) (h : l ≠ []) : ∃ m, medianQ l = some m := by
  rw [medianQ]
  have hlen : (List.insertionSort (· ≤ ·) l).length = l.length :=
    List.length_insertionSort _ l
  have h0 : (List.insertionSort (· ≤ ·) l).length ≠ 0 := by
    rw [hlen]
    simpa using h
  rw [if_neg h0]
  by_cases hodd : (List.insertionSort (· ≤ ·) l).length % 2 = 1
  · rw [if_pos hodd]
    have hlt : (List.insertionSort (· ≤ ·) l).length / 2 <
        (List.insertionSort (· ≤ ·) l).length := by omega
    exact ⟨_, List.getElem?_eq_getElem hlt⟩
  · rw [if_neg hodd]
    have ha : (List.insertionSort (· ≤ ·) l).length / 2 - 1 <
        (List.insertionSort (· ≤ ·) l).length := by omega
    have hb : (List.insertionSort (· ≤ ·) l).length / 2 <
        (List.insertionSort (· ≤ ·) l).length := by omega
    rw [List.getElem?_eq_getElem ha, List.getElem?_eq_getElem hb]
    exact ⟨_, rfl⟩

theorem getCol_fillWith_self (df : DataFrame) (c : String) (v : Option Cell)
    (col : Col) (h : getCol df c = some col) :
    getCol (fillWith df c v) c =
      some ⟨col.dtype, col.cells.map (fillCell v)⟩ := by
  induction df with
  | nil => simp [getCol] at h
  | cons p df ih =>
    rw [getCol_cons] at h
    rw [fillWith_cons, getCol_cons]
    by_cases hc : p.1 = c
    · rw [if_pos hc] at h
      obtain rfl := Option.some.inj h
      simp [hc]
    · rw [if_neg hc] at h
      simp only [if_neg hc]
      exact ih h

theorem getCol_selectNumeric_of_num (df : DataFrame) (c : String) (col : Col)
    (h : getCol df c = some col) (hd : col.dtype = Dtype.numeric) :
    getCol (selectNumeric df) c = some col := by
  induction df with
  | nil => simp [getCol] at h
  | cons p df ih =>
    rw [getCol_cons] at h
    by_cases hc : p.1 = c
    · rw [if_pos hc] at h
      obtain rfl := Option.some.inj h
      rw [selectNumeric, List.filter_cons_of_pos (by simp [hd]),
        ← selectNumeric, getCol_cons, if_pos hc]
    · rw [if_neg hc] at h
      by_cases hdp : p.2.dtype = Dtype.numeric
      · rw [selectNumeric, List.filter_cons_of_pos (by simp [hdp]),
          ← selectNumeric, getCol_cons, if_neg hc]
        exact ih h
      · rw [selectNumeric, List.filter_cons_of_neg (by simp [hdp]),
          ← selectNumeric]
        exact ih h

theorem fillCell_ne_missing (m : ℚ) (x : Cell) :
    fillCell (some (.num m)) x ≠ Cell.missing := by
  cases x <;> simp [fillCell]

theorem fillCell_eq_self (v : Option Cell) (x : Cell) (h : x ≠ Cell.missing) :
    fillCell v x = x := by
  cases x with
  | num a => rfl
  | str s => rfl
  | missing => exact absurd rfl h

/-- The column a dimension fill produces inside the specification pipeline:
the original cells with every missing cell replaced by the column's own
median `m`. -/
theorem getCol_specPreprocess_dim (df : DataFrame) (c : String) (col : Col)
    (hcm : c ∈ dimCols) (hcol : getCol df c = some col)
    (hd : col.dtype = Dtype.numeric) (m : ℚ) (hm : colMedian col = some m) :
    getCol (specPreprocess df) c =
      some ⟨col.dtype, col.cells.map (fillCell (some (.num m)))⟩ := by
  have hvc : medianCellOf df c = some (.num m) := by
    rw [medianCellOf, hcol]
    simp [hm]
  simp only [dimCols, List.mem_cons, List.not_mem_nil, or_false] at hcm
  rw [specPreprocess]
  simp only [dimCols, List.foldl_cons, List.foldl_nil]
  rcases hcm with rfl | rfl | rfl | rfl
  · rw [hvc]
    set P1 := df.filter (fun p => !timestampCols.contains p.1) with hP1
    set F1 := fillWith P1 "product_weight_g" (some (Cell.num m)) with hF1
    set F2 := fillWith F1 "product_length_cm"
      (medianCellOf df "product_length_cm") with hF2
    set F3 := fillWith F2 "product_height_cm"
      (medianCellOf df "product_height_cm") with hF3
    set F4 := fillWith F3 "product_width_cm"
      (medianCellOf df "product_width_cm") with hF4
    set D3 := fillWith F4 "review_comment_message"
      (some (Cell.str "No review")) with hD3
    have h1 : getCol P1 "product_weight_g" = some col := by
      rw [hP1, getCol_filterName df (fun s => !timestampCols.contains s) _,
        if_pos (by decide)]
      exact hcol
    have h2 : getCol F1 "product_weight_g" =
        some ⟨col.dtype, col.cells.map (fillCell (some (.num m)))⟩ := by
      rw [hF1]
      exact getCol_fillWith_self _ _ _ col h1
    have h3 : getCol F2 "product_weight_g" =
        some ⟨col.dtype, col.cells.map (fillCell (some (.num m)))⟩ := by
      rw [hF2, getCol_fillWith_ne _ _ _ _ (by decide)]
      exact h2
    have h4 : getCol F3 "product_weight_g" =
        some ⟨col.dtype, col.cells.map (fillCell (some (.num m)))⟩ := by
      rw [hF3, getCol_fillWith_ne _ _ _ _ (by decide)]
      exact h3
    have h5 : getCol F4 "product_weight_g" =
        some ⟨col.dtype, col.cells.map (fillCell (some (.num m)))⟩ := by
      rw [hF4, getCol_fillWith_ne _ _ _ _ (by decide)]
      exact h4
    have h6 : getCol D3 "product_weight_g" =
        some ⟨col.dtype, col.cells.map (fillCell (some (.num m)))⟩ := by
      rw [hD3, getCol_fillWith_ne _ _ _ _ (by decide)]
      exact h5
    rw [getCol_filterName _ (fun s => !colsToDrop.contains s) _,
      if_pos (by decide)]
    exact getCol_selectNumeric_of_num _ _ _ h6 hd
  · rw [hvc]
    set P1 := df.filter (fun p => !timestampCols.contains p.1) with hP1
    set F1 := fillWith P1 "product_weight_g"
      (medianCellOf df "product_weight_g") with hF1
    set F2 := fillWith F1 "product_length_cm" (some (Cell.num m)) with hF2
    set F3 := fillWith F2 "product_height_cm"
      (medianCellOf df "product_height_cm") with hF3
    set F4 := fillWith F3 "product_width_cm"
      (medianCellOf df "product_width_cm") with hF4
    set D3 := fillWith F4 "review_comment_message"
      (some (Cell.str "No review")) with hD3
    have h1 : getCol P1 "product_length_cm" = some col := by
      rw [hP1, getCol_filterName df (fun s => !timestampCols.contains s) _,
        if_pos (by decide)]
      exact hcol
    have h2 : getCol F1 "product_length_cm" = some col := by
      rw [hF1, getCol_fillWith_ne _ _ _ _ (by decide)]
      exact h1
    have h3 : getCol F2 "product_length_cm" =
        some ⟨col.dtype, col.cells.map (fillCell (some (.num m)))⟩ := by
      rw [hF2]
      exact getCol_fillWith_self _ _ _ col h2
    have h4 : getCol F3 "product_length_cm" =
        some ⟨col.dtype, col.cells.map (fillCell (some (.num m)))⟩ := by
      rw [hF3, getCol_fillWith_ne _ _ _ _ (by decide)]
      exact h3
    have h5 : getCol F4 "product_length_cm" =
        some ⟨col.dtype, col.cells.map (fillCell (some (.num m)))⟩ := by
      rw [hF4, getCol_fillWith_ne _ _ _ _ (by decide)]
      exact h4
    have h6 : getCol D3 "product_length_cm" =
        some ⟨col.dtype, col.cells.map (fillCell (some (.num m)))⟩ := by
      rw [hD3, getCol_fillWith_ne _ _ _ _ (by decide)]
      exact h5
    rw [getCol_filterName _ (fun s => !colsToDrop.contains s) _,
      if_pos (by decide)]
    exact getCol_selectNumeric_of_num _ _ _ h6 hd
  · rw [hvc]
    set P1 := df.filter (fun p => !timestampCols.contains p.1) with hP1
    set F1 := fillWith P1 "product_weight_g"
      (medianCellOf df "product_weight_g") with hF1
    set F2 := fillWith F1 "product_length_cm"
      (medianCellOf df "product_length_cm") with hF2
    set F3 := fillWith F2 "product_height_cm" (some (Cell.num m)) with hF3
    set F4 := fillWith F3 "product_width_cm"
      (medianCellOf df "product_width_cm") with hF4
    set D3 := fillWith F4 "review_comment_message"
      (some (Cell.str "No review")) with hD3
    have h1 : getCol P1 "product_height_cm" = some col := by
      rw [hP1, getCol_filterName df (fun s => !timestampCols.contains s) _,
        if_pos (by decide)]
      exact hcol
    have h2 : getCol F1 "product_height_cm" = some col := by
      rw [hF1, getCol_fillWith_ne _ _ _ _ (by decide)]
      exact h1
    have h3 : getCol F2 "product_height_cm" = some col := by
      rw [hF2, getCol_fillWith_ne _ _ _ _ (by decide)]
      exact h2
    have h4 : getCol F3 "product_height_cm" =
        some ⟨col.dtype, col.cells.map (fillCell (some (.num m)))⟩ := by
      rw [hF3]
      exact getCol_fillWith_self _ _ _ col h3
    have h5 : getCol F4 "product_height_cm" =
        some ⟨col.dtype, col.cells.map (fillCell (some (.num m)))⟩ := by
      rw [hF4, getCol_fillWith_ne _ _ _ _ (by decide)]
      exact h4
    have h6 : getCol D3 "product_height_cm" =
        some ⟨col.dtype, col.cells.map (fillCell (some (.num m)))⟩ := by
      rw [hD3, getCol_fillWith_ne _ _ _ _ (by decide)]
      exact h5
    rw [getCol_filterName _ (fun s => !colsToDrop.contains s) _,
      if_pos (by decide)]
    exact getCol_selectNumeric_of_num _ _ _ h6 hd
  · rw [hvc]
    set P1 := df.filter (fun p => !timestampCols.contains p.1) with hP1
    set F1 := fillWith P1 "product_weight_g"
      (medianCellOf df "product_weight_g") with hF1
    set F2 := fillWith F1 "product_length_cm"
      (medianCellOf df "product_length_cm") with hF2
    set F3 := fillWith F2 "product_height_cm"
      (medianCellOf df "product_height_cm") with hF3
    set F4 := fillWith F3 "product_width_cm" (some (Cell.num m)) with hF4
    set D3 := fillWith F4 "review_comment_message"
      (some (Cell.str "No review")) with hD3
    have h1 : getCol P1 "product_width_cm" = some col := by
      rw [hP1, getCol_filterName df (fun s => !timestampCols.contains s) _,
        if_pos (by decide)]
      exact hcol
    have h2 : getCol F1 "product_width_cm" = some col := by
      rw [hF1, getCol_fillWith_ne _ _ _ _ (by decide)]
      exact h1
    have h3 : getCol F2 "product_width_cm" = some col := by
      rw [hF2, getCol_fillWith_ne _ _ _ _ (by decide)]
      exact h2
    have h4 : getCol F3 "product_width_cm" = some col := by
      rw [hF3, getCol_fillWith_ne _ _ _ _ (by decide)]
      exact h3
    have h5 : getCol F4 "product_width_cm" =
        some ⟨col.dtype, col.cells.map (fillCell (some (.num m)))⟩ := by
      rw [hF4]
      exact getCol_fillWith_self _ _ _ col h4
    have h6 : getCol D3 "product_width_cm" =
        some ⟨col.dtype, col.cells.map (fillCell (some (.num m)))⟩ := by
      rw [hD3, getCol_fillWith_ne _ _ _ _ (by decide)]
      exact h5
    rw [getCol_filterName _ (fun s => !colsToDrop.contains s) _,
      if_pos (by decide)]
    exact getCol_selectNumeric_of_num _ _ _ h6 hd

/-- C6 (amended): on a table where the preprocess strategy succeeds, any
imputed dimension column that is numeric-dtyped and has at least one
non-missing numeric value comes out with its length preserved, no missing
values, and every non-missing value unchanged from the input.  (The
amendment adds the at-least-one-non-missing-value condition: an all-missing
column keeps its missing values, since its median is itself `NaN`.) -/
theorem claim_C6_imputed_column (df : DataFrame) (c : String) (col : Col)
    (hp : expectedPresent df) (hcm : c ∈ dimCols)
    (hcol : getCol df c = some col) (hd : col.dtype = Dtype.numeric)
    (hnm : col.cells.filterMap numVal ≠ []) :
    ∃ out colOut,
      DataPreprocessStrategy.handle_data df = .ok out ∧
      getCol out c = some colOut ∧
      colOut.cells.length = col.cells.length ∧
      (∀ x ∈ colOut.cells, x ≠ Cell.missing) ∧
      (∀ i, ∀ hi : i < col.cells.length,
        col.cells.get ⟨i, hi⟩ ≠ Cell.missing →
          colOut.cells[i]? = some (col.cells.get ⟨i, hi⟩)) := by
  obtain ⟨m, hm⟩ := medianQ_isSome _ hnm
  have hmc : colMedian col = some m := hm
  refine ⟨specPreprocess df,
    ⟨col.dtype, col.cells.map (fillCell (some (.num m)))⟩,
    handle_data_eq_specPreprocess df hp,
    getCol_specPreprocess_dim df c col hcm hcol hd m hmc, ?_, ?_, ?_⟩
  · exact List.length_map _ _
  · intro x hx
    simp only [List.mem_map] at hx
    obtain ⟨y, _, rfl⟩ := hx
    exact fillCell_ne_missing m y
  · intro i hi hne
    rw [List.getElem?_map, List.getElem?_eq_getElem hi]
    rw [List.get_eq_getElem] at hne
    simp [fillCell_eq_self _ _ hne]

theorem claim_C6_witness :
    ("product_weight_g" ∈ dimCols ∧
      getCol sampleFull "product_weight_g" =
        some ⟨Dtype.numeric, [Cell.num 10, Cell.missing]⟩) ∧
    (∃ out colOut,
      DataPreprocessStrategy.handle_data sampleFull = .ok out ∧
      getCol out "product_weight_g" = some colOut ∧
      colOut.cells.length =
        (⟨Dtype.numeric, [Cell.num 10, Cell.missing]⟩ : Col).cells.length ∧
      (∀ x ∈ colOut.cells, x ≠ Cell.missing) ∧
      (∀ i, ∀ hi : i <
          (⟨Dtype.numeric, [Cell.num 10, Cell.missing]⟩ : Col).cells.length,
        (⟨Dtype.numeric, [Cell.num 10, Cell.missing]⟩ : Col).cells.get ⟨i, hi⟩
            ≠ Cell.missing →
          colOut.cells[i]? =
            some ((⟨Dtype.numeric, [Cell.num 10, Cell.missing]⟩ : Col).cells.get
              ⟨i, hi⟩))) :=
  ⟨⟨by decide, by decide⟩,
   claim_C6_imputed_column sampleFull "product_weight_g"
     ⟨Dtype.numeric, [Cell.num 10, Cell.missing]⟩
     (by decide) (by decide) (by decide) (by decide) (by decide)⟩

/-- A table with all expected columns whose `product_weight_g` column is
entirely missing. -/
def allMissingTable : DataFrame :=
  [("order_approved_at", ⟨Dtype.datetime, [Cell.str "a", Cell.str "b"]⟩),
   ("order_delivered_carrier_date",
     ⟨Dtype.datetime, [Cell.str "c", Cell.str "d"]⟩),
   ("order_delivered_customer_date",
     ⟨Dtype.datetime, [Cell.str "e", Cell.str "f"]⟩),
   ("order_estimated_delivery_date",
     ⟨Dtype.datetime, [Cell.str "g", Cell.str "h"]⟩),
   ("order_purchase_timestamp", ⟨Dtype.datetime, [Cell.str "i", Cell.str "j"]⟩),
   ("product_weight_g", ⟨Dtype.numeric, [Cell.missing, Cell.missing]⟩),
   ("product_length_cm", ⟨Dtype.numeric, [Cell.num 2, Cell.num 4]⟩),
   ("product_height_cm", ⟨Dtype.numeric, [Cell.num 1, Cell.num 3]⟩),
   ("product_width_cm", ⟨Dtype.numeric, [Cell.num 5, Cell.num 7]⟩),
   ("review_comment_message", ⟨Dtype.text, [Cell.missing, Cell.str "ok"]⟩),
   ("review_score", ⟨Dtype.numeric, [Cell.num 4, Cell.num 5]⟩),
   ("customer_zip_code_prefix", ⟨Dtype.numeric, [Cell.num 111, Cell.num 222]⟩),
   ("order_item_id", ⟨Dtype.numeric, [Cell.num 1, Cell.num 2]⟩)]

/-- On `allMissingTable`, whose numeric `product_weight_g` column consists
of missing values only, the preprocess strategy succeeds but its output's
`product_weight_g` column still contains missing values (the median of an
all-missing column is `NaN`, and `fillna(NaN)` changes nothing).  This
refutes the unamended claim. -/
theorem claim_C6_counterexample :
    getCol allMissingTable "product_weight_g" =
      some ⟨Dtype.numeric, [Cell.missing, Cell.missing]⟩ ∧
    DataPreprocessStrategy.handle_data allMissingTable =
      .ok [("product_weight_g",
             ⟨Dtype.numeric, [Cell.missing, Cell.missing]⟩),
           ("product_length_cm", ⟨Dtype.numeric, [Cell.num 2, Cell.num 4]⟩),
           ("product_height_cm", ⟨Dtype.numeric, [Cell.num 1, Cell.num 3]⟩),
           ("product_width_cm", ⟨Dtype.numeric, [Cell.num 5, Cell.num 7]⟩),
           ("review_score", ⟨Dtype.numeric, [Cell.num 4, Cell.num 5]⟩)] := by
  constructor
  · decide
  · decide

/-- The concrete output of the preprocess strategy on `sampleFull`. -/
def sampleFullOut : DataFrame :=
  [("product_weight_g", ⟨Dtype.numeric, [Cell.num 10, Cell.num 10]⟩),
   ("product_length_cm", ⟨Dtype.numeric, [Cell.num 2, Cell.num 4]⟩),
   ("product_height_cm", ⟨Dtype.numeric, [Cell.num 3, Cell.num 3]⟩),
   ("product_width_cm", ⟨Dtype.numeric, [Cell.num 5, Cell.num 7]⟩),
   ("review_score", ⟨Dtype.numeric, [Cell.num 4, Cell.num 5]⟩)]

/-- C9 (amended): a successful preprocess call leaves the caller's frame
unchanged.  The body's first statement rebinds the local name to the fresh
frame returned by the non-in-place `drop`, and every in-place fill targets
that fresh frame, so the reference behaviour is copy-and-return, not
mutate-in-place. -/
theorem claim_C9_input_not_mutated (df : DataFrame)
    (r : DataFrame × DataFrame)
    (h : DataPreprocessStrategy.handle_dataWithCaller df = .ok r) :
    r.1 = df := by
  rw [DataPreprocessStrategy.handle_dataWithCaller] at h
  cases h0 : dropCols df timestampCols with
  | error e => rw [h0, exbind_error] at h; exact absurd h (by simp)
  | ok d1 =>
    rw [h0, exbind_ok] at h
    cases h1 : fillnaMedian d1 "product_weight_g" with
    | error e => rw [h1, exbind_error] at h; exact absurd h (by simp)
    | ok d2 =>
      rw [h1, exbind_ok] at h
      cases h2 : fillnaMedian d2 "product_length_cm" with
      | error e => rw [h2, exbind_error] at h; exact absurd h (by simp)
      | ok d3 =>
        rw [h2, exbind_ok] at h
        cases h3 : fillnaMedian d3 "product_height_cm" with
        | error e => rw [h3, exbind_error] at h; exact absurd h (by simp)
        | ok d4 =>
          rw [h3, exbind_ok] at h
          cases h4 : fillnaMedian d4 "product_width_cm" with
          | error e => rw [h4, exbind_error] at h; exact absurd h (by simp)
          | ok d5 =>
            rw [h4, exbind_ok] at h
            cases h5 : fillnaStr d5 "review_comment_message" "No review" with
            | error e => rw [h5, exbind_error] at h; exact absurd h (by simp)
            | ok d6 =>
              rw [h5, exbind_ok] at h
              have hz : (dropCols (selectNumeric d6) colsToDrop >>=
                  fun out => (pure (df, out) :
                    Except PipeError (DataFrame × DataFrame))) =
                  Except.ok r := h
              cases h6 : dropCols (selectNumeric d6) colsToDrop with
              | error e =>
                rw [h6, exbind_error] at hz; exact absurd hz (by simp)
              | ok d7 =>
                rw [h6, exbind_ok] at hz
                have hz2 : Except.ok (ε := PipeError) (df, d7) =
                    Except.ok r := hz
                have he : (df, d7) = r := Except.ok.inj hz2
                rw [← he]

theorem claim_C9_witness :
    DataPreprocessStrategy.handle_dataWithCaller sampleFull =
      .ok (sampleFull, sampleFullOut) ∧
    (sampleFull, sampleFullOut).1 = sampleFull :=
  ⟨by decide,
   claim_C9_input_not_mutated sampleFull (sampleFull, sampleFullOut)
     (by decide)⟩

/-- After a successful preprocess call on `sampleFull`, the caller's frame
is exactly the frame it passed in: it still contains the
`order_purchase_timestamp` column and the missing `product_weight_g` cell,
so neither the drops nor the imputations are visible to the caller.  This
refutes the claim that the reference behaviour mutates the input in
place. -/
theorem claim_C9_counterexample :
    (DataPreprocessStrategy.handle_dataWithCaller sampleFull).map Prod.fst =
      .ok sampleFull ∧
    hasCol sampleFull "order_purchase_timestamp" = true ∧
    getCol sampleFull "product_weight_g" =
      some ⟨Dtype.numeric, [Cell.num 10, Cell.missing]⟩ := by
  refine ⟨by decide, by decide, by decide⟩

/-! The score evaluators of `src/evaluate.py`.  Each `calculate_score`
delegates to the sklearn metric, logs, and re-raises any exception
unchanged, so each is embedded as the sklearn computation itself. -/

/-- The input validation every sklearn metric performs:
`check_consistent_length` raises `ValueError` on mismatched lengths and
`check_array` raises `ValueError` on an empty input; both are the
specification's `ShapeMismatchError`. -/
def checkSeq (yt yp : List ℚ) : Except PipeError Unit :=
  if yt.length ≠ yp.length then .error .shapeMismatchError
  else if yt.length = 0 then .error .shapeMismatchError
  else .ok ()

/-- Residual sum of squares: the sklearn metrics' shared numerator. -/
def rss (yt yp : List ℚ) : ℚ :=
  ((yt.zip yp).map (fun p => (p.1 - p.2) * (p.1 - p.2))).sum

/-- Arithmetic mean. -/
def meanQ (l : List ℚ) : ℚ := l.sum / l.length

/-- Total sum of squares around the mean: `r2_score`'s denominator. -/
def tss (yt : List ℚ) : ℚ :=
  (yt.map (fun x => (x - meanQ yt) * (x - meanQ yt))).sum

/-- sklearn `mean_squared_error`: mean of squared per-element differences. -/
def mean_squared_error (yt yp : List ℚ) : Except PipeError ℚ := do
  checkSeq yt yp
  .ok (rss yt yp / yt.length)

/-- `MSE.calculate_score` from `src/evaluate.py`. -/
def MSE.calculate_score (y_true y_pred : List ℚ) : Except PipeError ℚ :=
  mean_squared_error y_true y_pred

/-- The value sklearn `r2_score` returns: `NaN` (with a warning, no
exception) for fewer than two samples, otherwise a number. -/
inductive R2Result where
  | nan
  | val (x : ℚ)
  deriving DecidableEq

/-- sklearn `r2_score`: after shape validation, fewer than two samples give
`NaN`; a zero denominator gives 1.0 when the numerator is also zero and 0.0
otherwise (no exception); the generic case is `1 - rss / tss`. -/
def r2_score (yt yp : List ℚ) : Except PipeError R2Result := do
  checkSeq yt yp
  if yt.length < 2 then .ok .nan
  else if tss yt = 0 then
    if rss yt yp = 0 then .ok (.val 1) else .ok (.val 0)
  else .ok (.val (1 - rss yt yp / tss yt))

/-- `R2Score.calculate_score` from `src/evaluate.py`. -/
def R2Score.calculate_score (y_true y_pred : List ℚ) :
    Except PipeError R2Result :=
  r2_score y_true y_pred

/-- `RMSE.calculate_score` from `src/evaluate.py`:
`np.sqrt(mean_squared_error(y_true, y_pred))`. -/
noncomputable def RMSE.calculate_score (y_true y_pred : List ℚ) :
    Except PipeError ℝ :=
  (mean_squared_error y_true y_pred).map (fun m => Real.sqrt (m : ℝ))

/-- C4: each of the three evaluators rejects mismatched-length or empty
inputs with a `ShapeMismatchError`. -/
theorem claim_C4_shape_mismatch (yt yp : List ℚ)
    (h : yt.length ≠ yp.length ∨ yt.length = 0) :
    MSE.calculate_score yt yp = .error .shapeMismatchError ∧
    R2Score.calculate_score yt yp = .error .shapeMismatchError ∧
    RMSE.calculate_score yt yp = .error .shapeMismatchError := by
  have hc : checkSeq yt yp = .error .shapeMismatchError := by
    rw [checkSeq]
    rcases h with h | h
    · rw [if_pos h]
    · by_cases h1 : yt.length ≠ yp.length
      · rw [if_pos h1]
      · rw [if_neg h1, if_pos h]
  refine ⟨?_, ?_, ?_⟩
  · rw [MSE.calculate_score, mean_squared_error]
    simp only [hc, exbind_error]
  · rw [R2Score.calculate_score, r2_score]
    simp only [hc, exbind_error]
  · rw [RMSE.calculate_score, mean_squared_error]
    simp only [hc, exbind_error]
    rfl

theorem claim_C4_witness :
    (([1, 2, 3] : List ℚ).length ≠ ([1, 2] : List ℚ).length ∨
      ([1, 2, 3] : List ℚ).length = 0) ∧
    MSE.calculate_score [1, 2, 3] [1, 2] = .error .shapeMismatchError ∧
    R2Score.calculate_score [1, 2, 3] [1, 2] = .error .shapeMismatchError ∧
    RMSE.calculate_score [1, 2, 3] [1, 2] = .error .shapeMismatchError :=
  ⟨by decide, claim_C4_shape_mismatch [1, 2, 3] [1, 2] (by decide)⟩

/-- C7: RMSE is the square root of MSE, and is always nonnegative. -/
theorem claim_C7_rmse_sqrt_mse (yt yp : List ℚ) (h1 : yt.length = yp.length)
    (h2 : yt ≠ []) :
    ∃ m : ℚ, MSE.calculate_score yt yp = .ok m ∧ 0 ≤ m ∧
      RMSE.calculate_score yt yp = .ok (Real.sqrt (m : ℝ)) ∧
      0 ≤ Real.sqrt (m : ℝ) := by
  have hc : checkSeq yt yp = .ok () := by
    rw [checkSeq, if_neg (by simp [h1]), if_neg (by simpa using h2)]
  refine ⟨rss yt yp / yt.length, ?_, ?_, ?_, Real.sqrt_nonneg _⟩
  · rw [MSE.calculate_score, mean_squared_error]
    simp only [hc, exbind_ok]
  · apply div_nonneg
    · apply List.sum_nonneg
      intro x hx
      simp only [List.mem_map] at hx
      obtain ⟨q, _, rfl⟩ := hx
      exact mul_self_nonneg _
    · positivity
  · rw [RMSE.calculate_score, mean_squared_error]
    simp only [hc, exbind_ok]
    rfl

theorem claim_C7_witness :
    ∃ m : ℚ, MSE.calculate_score [1, 2] [1, 4] = .ok m ∧ 0 ≤ m ∧
      RMSE.calculate_score [1, 2] [1, 4] = .ok (Real.sqrt (m : ℝ)) ∧
      0 ≤ Real.sqrt (m : ℝ) :=
  claim_C7_rmse_sqrt_mse [1, 2] [1, 4] (by decide) (by decide)

theorem rss_self (yt : List ℚ) : rss yt yt = 0 := by
  induction yt with
  | nil => rfl
  | cons a t ih => simp [rss, List.zip_cons_cons] at ih ⊢; exact ih

theorem sum_sq_zero {l : List ℚ} {m : ℚ}
    (h : (l.map (fun x => (x - m) * (x - m))).sum = 0) : ∀ x ∈ l, x = m := by
  induction l with
  | nil => simp
  | cons a t ih =>
    rw [List.map_cons, List.sum_cons] at h
    have h1 : 0 ≤ (a - m) * (a - m) := mul_self_nonneg _
    have h2 : 0 ≤ ((t.map (fun x => (x - m) * (x - m))).sum : ℚ) := by
      apply List.sum_nonneg
      intro x hx
      simp only [List.mem_map] at hx
      obtain ⟨q, _, rfl⟩ := hx
      exact mul_self_nonneg _
    have ha : (a - m) * (a - m) = 0 := by linarith
    have hb : ((t.map (fun x => (x - m) * (x - m))).sum : ℚ) = 0 := by linarith
    intro x hx
    rcases List.mem_cons.mp hx with rfl | hx2
    · have := mul_self_eq_zero.mp ha
      linarith
    · exact ih hb x hx2

/-- On the zero-variance target `[1, 1]` (with nonzero residuals), the R2
evaluator does not fail: sklearn's convention returns 0.0.  This refutes
the claim that zero target variance fails with `DegenerateInputError`. -/
theorem claim_C5_counterexample :
    (∀ x ∈ ([1, 1] : List ℚ), ∀ z ∈ ([1, 1] : List ℚ), x = z) ∧
    R2Score.calculate_score [1, 1] [1, 2] = .ok (.val 0) := by
  constructor
  · decide
  · decide

/-- C5 (amended): for equal-length inputs with at least two samples, the R2
evaluator never fails.  It returns `1 - rss / tss` in the generic case (a
value that may be negative); when the target variance is zero it returns
1.0 if the residuals are also zero and 0.0 otherwise; and on a non-constant
target, `R2(y, y) = 1.0`. -/
theorem claim_C5_r2_total (yt yp : List ℚ) (h1 : yt.length = yp.length)
    (h2 : 2 ≤ yt.length) :
    (R2Score.calculate_score yt yp =
      .ok (.val (if tss yt = 0 then (if rss yt yp = 0 then 1 else 0)
                 else 1 - rss yt yp / tss yt))) ∧
    (¬ (∀ x ∈ yt, ∀ z ∈ yt, x = z) →
      R2Score.calculate_score yt yt = .ok (.val 1)) := by
  have hc : checkSeq yt yp = .ok () := by
    rw [checkSeq, if_neg (by simp [h1]), if_neg (by omega)]
  have hlt : ¬ yt.length < 2 := by omega
  constructor
  · rw [R2Score.calculate_score, r2_score]
    simp only [hc, exbind_ok]
    rw [if_neg hlt]
    split_ifs <;> rfl
  · intro hnc
    have hcs : checkSeq yt yt = .ok () := by
      rw [checkSeq, if_neg (by simp), if_neg (by omega)]
    have htss : tss yt ≠ 0 := by
      intro h0
      exact hnc (fun x hx z hz => by
        rw [sum_sq_zero h0 x hx, sum_sq_zero h0 z hz])
    rw [R2Score.calculate_score, r2_score]
    simp only [hcs, exbind_ok]
    rw [if_neg hlt, if_neg htss, rss_self]
    norm_num

theorem claim_C5_witness :
    (([1, 2, 4] : List ℚ).length = ([2, 1, 3] : List ℚ).length ∧
      2 ≤ ([1, 2, 4] : List ℚ).length) ∧
    (R2Score.calculate_score [1, 2, 4] [2, 1, 3] =
      .ok (.val (if tss [1, 2, 4] = 0
                 then (if rss [1, 2, 4] [2, 1, 3] = 0 then 1 else 0)
                 else 1 - rss [1, 2, 4] [2, 1, 3] / tss [1, 2, 4]))) ∧
    (¬ (∀ x ∈ ([1, 2, 4] : List ℚ), ∀ z ∈ ([1, 2, 4] : List ℚ), x = z) →
      R2Score.calculate_score [1, 2, 4] [1, 2, 4] = .ok (.val 1)) :=
  ⟨⟨by decide, by decide⟩,
   claim_C5_r2_total [1, 2, 4] [2, 1, 3] (by decide) (by decide)⟩

/-! The training step (claim C8). -/

/-- Modelled from the spec: the configuration class `ModelNameConfig` lives
in `steps/config.py`, which is not among the sources under review.  The
specification describes its surface as a single named option `model_name`
whose recognized value is `"LinearRegression"`. -/
structure ModelNameConfig where
  model_name : String := "LinearRegression"

/-- The trained-model handle: an ordinary-least-squares fit of the given
training data.  The numeric solve happens inside sklearn; the handle records
the fit call. -/
structure LinearRegressionHandle where
  X_fit : List (List ℚ)
  y_fit : List ℚ
  deriving DecidableEq

/-- `LinearRegressionModel.train` from `src/train_model.py`: constructs
`LinearRegression()` and fits it to the training data; sklearn's `fit`
raises on mismatched input shapes (the specification's `TrainingError`). -/
def LinearRegressionModel.train (X_train : List (List ℚ))
    (y_train : List ℚ) : Except PipeError LinearRegressionHandle :=
  if X_train.length = y_train.length then .ok ⟨X_train, y_train⟩
  else .error .trainingError

/-- `train_model` from `steps/model_train.py`: if the configured model name
is `"LinearRegression"`, train and return the model; otherwise raise
`ValueError` (the specification's `UnsupportedModelError`) without training
anything.  The step's `except` clause logs and re-raises unchanged. -/
def train_model (cfg : ModelNameConfig) (X_train : List (List ℚ))
    (y_train : List ℚ) : Except PipeError LinearRegressionHandle :=
  if cfg.model_name = "LinearRegression" then
    LinearRegressionModel.train X_train y_train
  else .error (.unsupportedModelError cfg.model_name)

/-- C8: any configured model name other than `"LinearRegression"` makes the
train step fail with an `UnsupportedModelError` and no model is trained;
the name `"LinearRegression"` (on well-shaped data) yields the fitted OLS
handle. -/
theorem claim_C8_model_dispatch (cfg : ModelNameConfig)
    (X : List (List ℚ)) (y : List ℚ) :
    (cfg.model_name ≠ "LinearRegression" →
      train_model cfg X y = .error (.unsupportedModelError cfg.model_name)) ∧
    (cfg.model_name = "LinearRegression" → X.length = y.length →
      train_model cfg X y = .ok ⟨X, y⟩) := by
  constructor
  · intro h
    rw [train_model, if_neg h]
  · intro h hl
    rw [train_model, if_pos h, LinearRegressionModel.train, if_pos hl]

theorem claim_C8_witness :
    (train_model ⟨"RandomForest"⟩ [[1], [2]] [1, 2] =
      .error (.unsupportedModelError "RandomForest")) ∧
    (train_model ⟨"LinearRegression"⟩ [[1], [2]] [1, 2] =
      .ok ⟨[[1], [2]], [1, 2]⟩) :=
  ⟨(claim_C8_model_dispatch ⟨"RandomForest"⟩ [[1], [2]] [1, 2]).1 (by decide),
   (claim_C8_model_dispatch ⟨"LinearRegression"⟩ [[1], [2]] [1, 2]).2 rfl
     (by decide)⟩

/-! The evaluation step (claim C10), from
`mlops_maker/steps/evaluation.py`: compute MSE, log it, compute R2, log it,
compute RMSE, log it, return the triple; on an exception, log and re-raise,
returning nothing.  The first component of the result records the
`mlflow.log_metric` names in emission order. -/
noncomputable def evaluate_model (y_test prediction : List ℚ) :
    List String × Except PipeError (ℚ × R2Result × ℝ) :=
  match MSE.calculate_score y_test prediction with
  | .error e => ([], .error e)
  | .ok mse =>
    match R2Score.calculate_score y_test prediction with
    | .error e => (["mse"], .error e)
    | .ok r2v =>
      match RMSE.calculate_score y_test prediction with
      | .error e => (["mse", "r2_score"], .error e)
      | .ok rmse => (["mse", "r2_score", "rmse"], .ok (mse, r2v, rmse))

/-- C10: metrics are emitted to the tracker strictly in the order `mse`,
`r2_score`, `rmse`, each logged before the next is computed: the emitted
names always form a prefix of that order; on success all three are emitted
with the computed values; on failure the step returns no tuple and exactly
the metrics computed before the failing one have been emitted. -/
theorem claim_C10_metric_emission_order (y p : List ℚ) :
    (∃ k, (evaluate_model y p).1 = ["mse", "r2_score", "rmse"].take k) ∧
    (∀ a b c, (evaluate_model y p).2 = .ok (a, b, c) →
      (evaluate_model y p).1 = ["mse", "r2_score", "rmse"] ∧
      MSE.calculate_score y p = .ok a ∧
      R2Score.calculate_score y p = .ok b ∧
      RMSE.calculate_score y p = .ok c) ∧
    (∀ e, (evaluate_model y p).2 = .error e →
      ((evaluate_model y p).1 = [] ∧ MSE.calculate_score y p = .error e) ∨
      ((evaluate_model y p).1 = ["mse"] ∧
        R2Score.calculate_score y p = .error e) ∨
      ((evaluate_model y p).1 = ["mse", "r2_score"] ∧
        RMSE.calculate_score y p = .error e)) := by
  cases hm : MSE.calculate_score y p with
  | error e0 =>
    have hev : evaluate_model y p = ([], .error e0) := by
      simp only [evaluate_model, hm]
    rw [hev]
    refine ⟨⟨0, rfl⟩, ?_, ?_⟩
    · intro a b c habs
      exact absurd habs (by simp)
    · intro e he
      obtain rfl := Except.error.inj he
      exact Or.inl ⟨rfl, rfl⟩
  | ok m1 =>
    cases hr : R2Score.calculate_score y p with
    | error e0 =>
      have hev : evaluate_model y p = (["mse"], .error e0) := by
        simp only [evaluate_model, hm, hr]
      rw [hev]
      refine ⟨⟨1, rfl⟩, ?_, ?_⟩
      · intro a b c habs
        exact absurd habs (by simp)
      · intro e he
        obtain rfl := Except.error.inj he
        exact Or.inr (Or.inl ⟨rfl, rfl⟩)
    | ok r1 =>
      cases hq : RMSE.calculate_score y p with
      | error e0 =>
        have hev : evaluate_model y p = (["mse", "r2_score"], .error e0) := by
          simp only [evaluate_model, hm, hr, hq]
        rw [hev]
        refine ⟨⟨2, rfl⟩, ?_, ?_⟩
        · intro a b c habs
          exact absurd habs (by simp)
        · intro e he
          obtain rfl := Except.error.inj he
          exact Or.inr (Or.inr ⟨rfl, rfl⟩)
      | ok q1 =>
        have hev : evaluate_model y p =
            (["mse", "r2_score", "rmse"], .ok (m1, r1, q1)) := by
          simp only [evaluate_model, hm, hr, hq]
        rw [hev]
        refine ⟨⟨3, rfl⟩, ?_, ?_⟩
        · intro a b c habs
          have h3 : (m1, r1, q1) = (a, b, c) := Except.ok.inj habs
          obtain ⟨rfl, rfl, rfl⟩ : m1 = a ∧ r1 = b ∧ q1 = c := by
            simpa [Prod.ext_iff] using h3
          exact ⟨rfl, rfl, rfl, rfl⟩
        · intro e he
          exact absurd he (by simp)

theorem claim_C10_witness :
    (evaluate_model [1, 2] [1, 2]).1 = ["mse", "r2_score", "rmse"] ∧
    MSE.calculate_score [1, 2] [1, 2] = .ok 0 ∧
    R2Score.calculate_score [1, 2] [1, 2] = .ok (.val 1) :=
  have h := (claim_C10_metric_emission_order [1, 2] [1, 2]).2.1 0 (.val 1)
    (Real.sqrt ((0 : ℚ) : ℝ)) (by rfl)
  ⟨h.1, h.2.1, h.2.2.1⟩

end MLOps
